import Mathlib

/-!
Shallow embedding of `FalkorDBGraph` (src/graphs/falkordb.ts) for verifying
the schema-discovery and caching routine (`refreshSchema`, `formatSchema`),
the rendered-schema accessors, and the `close` / constructor / `initialize`
driver-ownership logic.

Modelling conventions:
* JavaScript objects built by `Object.fromEntries` are association lists in
  insertion order; a repeated key keeps its first position and takes its
  last value (JS property-set semantics).
* A promise-returning query invocation is an `Except String` value supplied
  by the environment: `Except.error` is a rejected promise, `Except.ok` a
  resolved one carrying the `data` array of records, each record a single
  `output` field.
* Mutation of `this` is explicit state passing on the `FalkorDBGraph`
  structure; a method that can throw returns the error (if any) together
  with the state of the object when control leaves the method.
* Display-only fields (`host`, `port`, `database`, `timeoutMs`) and the raw
  driver/graph handles are reduced to the booleans the control flow reads
  (`hasDriver` for `this.driver`, `graphSelected` for `this.graph`);
  `console.log` / `console.warn` output is modelled where a claim depends
  on it (the `close` warning) and dropped otherwise.
-/

/-- Record shape of the relationship-triple query output and of the entries
of `StructuredSchema.relationships` (shape fixed by its use in
`FalkorDBGraph.refreshSchema`, consistent with the type exported from
`src/types`). `end` is a Lean keyword, hence the guillemets. -/
structure Relationship where
  start : String
  type : String
  «end» : String
deriving Repr, DecidableEq

/-- The `StructuredSchema` type from `src/types` as used by
`FalkorDBGraph.refreshSchema` / `formatSchema`: `nodeProps` and `relProps`
are JS objects mapping a label / relationship type to an array of property
names, modelled as association lists in insertion order. -/
structure StructuredSchema where
  nodeProps : List (String × List String)
  relProps : List (String × List String)
  relationships : List Relationship
deriving Repr, DecidableEq

/-- A query-result record: a single field named `output` (the three
introspection queries all return `... AS output`). -/
structure QueryRecord (α : Type) where
  output : α
deriving Repr, DecidableEq

/-- Output object of the node-properties introspection query:
`{label: label, properties: properties}`. -/
structure NodePropsOutput where
  label : String
  properties : List String
deriving Repr, DecidableEq

/-- Output object of the relationship-properties introspection query:
`{type: type, properties: properties}`. -/
structure RelPropsOutput where
  type : String
  properties : List String
deriving Repr, DecidableEq

/-- The outcomes of the three introspection query invocations of one
`refreshSchema` call, as resolved (`Except.ok` with the `data` array) or
rejected (`Except.error`) promises. -/
structure IntrospectionResults where
  nodeProps : Except String (List (QueryRecord NodePropsOutput))
  relProps : Except String (List (QueryRecord RelPropsOutput))
  relationships : Except String (List (QueryRecord Relationship))

/-- State of a `FalkorDBGraph` instance: the fields of the class that the
verified methods read or write. -/
structure FalkorDBGraph where
  hasDriver : Bool
  graphSelected : Bool
  schema : String
  structuredSchema : StructuredSchema
  enhancedSchema : Bool
  isExternalDriver : Bool
deriving Repr, DecidableEq

/-- The `FalkorDBGraphConfig` type from `src/types`, with the fields the
constructor / `initialize` read; `driver` is reduced to its presence. -/
structure FalkorDBGraphConfig where
  driver : Option Unit := none
  url : Option String := none
  host : Option String := none
  port : Option Nat := none
  username : Option String := none
  password : Option String := none
  graph : Option String := none
  enhancedSchema : Option Bool := none

/-- JS object update for one `[key, value]` pair: an existing key keeps its
position and takes the new value, a fresh key is appended. -/
def insertEntry {α : Type} (acc : List (String × α)) (k : String) (v : α) :
    List (String × α) :=
  if acc.any (fun p => p.1 == k) then
    acc.map (fun p => if p.1 == k then (k, v) else p)
  else
    acc ++ [(k, v)]

/-- Model of `Object.fromEntries`: fold the `[key, value]` pairs into a JS object
(association list, insertion order, repeated key keeps first position and
last value). -/
def fromEntries {α : Type} (l : List (String × α)) : List (String × α) :=
  l.foldl (fun acc p => insertEntry acc p.1 p.2) []

/-- Method `FalkorDBGraph.formatSchema`: render `Object.entries` of the two
property maps as `label: {prop1, prop2}` lines, the triples as
`(:start) -[:type]-> (:end)` lines, and join the three fixed headers with
the three bodies by newlines. -/
def formatSchema (ss : StructuredSchema) : String :=
  let formattedNodeProps := String.intercalate "\n"
    (ss.nodeProps.map (fun p =>
      p.1 ++ ": \x7b" ++ String.intercalate ", " p.2 ++ "\x7d"))
  let formattedRelProps := String.intercalate "\n"
    (ss.relProps.map (fun p =>
      p.1 ++ ": \x7b" ++ String.intercalate ", " p.2 ++ "\x7d"))
  let formattedRelationships := String.intercalate "\n"
    (ss.relationships.map (fun rel =>
      "(:" ++ rel.start ++ ") -[:" ++ rel.type ++ "]-> (:" ++ rel.«end» ++ ")"))
  String.intercalate "\n"
    ["Node properties are the following:",
     formattedNodeProps,
     "Relationship properties are the following:",
     formattedRelProps,
     "The relationships are the following:",
     formattedRelationships]

/-- Method `FalkorDBGraph.enhanceSchemaDetails`: only logs
"Enhanced schema details not yet implemented for FalkorDB." and touches no
field, so it is the identity on the instance state. -/
def enhanceSchemaDetails (g : FalkorDBGraph) : FalkorDBGraph := g

/-- The per-query fallback of `refreshSchema`:
`.catch(() => ({ data: [] }))` composed with `result.data || []` — a
rejected query invocation contributes an empty record list. -/
def catchEmpty {α : Type} (r : Except String (List α)) : List α :=
  match r with
  | .ok d => d
  | .error _ => []

/-- The normalization step of `refreshSchema` (the `this.structuredSchema`
assignment): fold each query's records into the fresh `StructuredSchema`
via `Object.fromEntries` over `[label, properties]` / `[type, properties]`
pairs, and project the triple records to their `output` objects. Factored
out of `refreshSchema` so statements can name it. -/
def normalizeIntrospection (q : IntrospectionResults) : StructuredSchema :=
  let nodeProperties := catchEmpty q.nodeProps
  let relationshipsProperties := catchEmpty q.relProps
  let relationships := catchEmpty q.relationships
  { nodeProps := fromEntries (nodeProperties.map
      (fun el => (el.output.label, el.output.properties)))
    relProps := fromEntries (relationshipsProperties.map
      (fun el => (el.output.type, el.output.properties)))
    relationships := relationships.map (fun el => el.output) }

/-- Result of one `refreshSchema` call: the thrown error if any, the
instance state when control leaves the method, and how many introspection
queries were issued through the query channel. -/
structure RefreshOutcome where
  err : Option String
  state : FalkorDBGraph
  queriesIssued : Nat
deriving Repr, DecidableEq

/-- Method `FalkorDBGraph.refreshSchema`: throw `NotReady` when no graph is
selected; otherwise issue the three introspection queries, each with
`.catch(() => ({ data: [] }))`, normalize the records into a fresh
`StructuredSchema` via `Object.fromEntries` / `map`, run the (no-op)
enhanced pass when requested, and re-render `this.schema`. -/
def refreshSchema (g : FalkorDBGraph) (q : IntrospectionResults) :
    RefreshOutcome :=
  if !g.graphSelected then
    { err := some "No graph selected. Call selectGraph() first.",
      state := g, queriesIssued := 0 }
  else
    let structuredSchema := normalizeIntrospection q
    let g1 := { g with structuredSchema := structuredSchema }
    let g2 := if g1.enhancedSchema then enhanceSchemaDetails g1 else g1
    let g3 := { g2 with schema := formatSchema g2.structuredSchema }
    { err := none, state := g3, queriesIssued := 3 }

/-- Method `FalkorDBGraph.getSchema`. -/
def getSchema (g : FalkorDBGraph) : String := g.schema

/-- Method `FalkorDBGraph.getStructuredSchema`. -/
def getStructuredSchema (g : FalkorDBGraph) : StructuredSchema :=
  g.structuredSchema

/-- The `FalkorDBGraph` constructor: fields start empty, `enhancedSchema`
defaults to `false`, `isExternalDriver` records whether `config.driver`
was supplied; the driver and graph handles are not yet assigned. -/
def construct (config : FalkorDBGraphConfig) : FalkorDBGraph :=
  { hasDriver := false
    graphSelected := false
    schema := ""
    structuredSchema := { nodeProps := [], relProps := [], relationships := [] }
    enhancedSchema := config.enhancedSchema.getD false
    isExternalDriver := config.driver.isSome }

/-- Static method `FalkorDBGraph.initialize`, second half, once a driver is in hand:
verify connectivity (`infoResult` stands for the `driver.info()` outcome)
and select the default graph when one is configured (`selectResult` for
`driver.selectGraph`). (The source names the whole static method
`initialize`; that is a reserved word here, so it is embedded as
`initGraph` below with this continuation factored out.) -/
def initAfterDriver (config : FalkorDBGraphConfig) (g1 : FalkorDBGraph)
    (infoResult : Except String Unit)
    (selectResult : Except String Unit) : Except String FalkorDBGraph :=
  match infoResult with
  | .error m => .error ("Failed to connect to FalkorDB: " ++
      "Failed to verify connectivity: " ++ m)
  | .ok _ =>
    match config.graph with
    | none => .ok g1
    | some name =>
      match selectResult with
      | .ok _ => .ok { g1 with graphSelected := true }
      | .error m => .error ("Failed to connect to FalkorDB: " ++
          "Failed to select graph \x27" ++ name ++ "\x27: " ++ m)

/-- Static method `FalkorDBGraph.initialize`, first half: construct the instance, then
adopt the supplied external driver or connect a fresh one
(`connectResult` stands for `FalkorDB.connect`); any failure is rethrown
as a "Failed to connect to FalkorDB" error (the `at host:port` display
interpolation is omitted along with the display fields). -/
def initGraph (config : FalkorDBGraphConfig)
    (connectResult : Except String Unit)
    (infoResult : Except String Unit)
    (selectResult : Except String Unit) :
    Except String FalkorDBGraph :=
  let g := construct config
  match config.driver with
  | some _ => initAfterDriver config { g with hasDriver := true }
      infoResult selectResult
  | none =>
    match connectResult with
    | .ok _ => initAfterDriver config { g with hasDriver := true }
        infoResult selectResult
    | .error m => .error ("Failed to connect to FalkorDB: " ++ m)

/-- Observable outcome of `FalkorDBGraph.close`: whether `driver.close()`
was invoked, and the `console.warn` message when closing failed. `close`
has no error channel — every driver-close rejection is caught. -/
structure CloseResult where
  driverCloseInvoked : Bool
  warning : Option String
deriving Repr, DecidableEq

/-- Method `FalkorDBGraph.close`: close the driver only when one exists and it was
created internally; a rejection of `driver.close()` is caught and surfaced
as a warning. -/
def close (g : FalkorDBGraph) (driverCloseResult : Except String Unit) :
    CloseResult :=
  if g.hasDriver && !g.isExternalDriver then
    match driverCloseResult with
    | .ok _ => { driverCloseInvoked := true, warning := none }
    | .error m =>
      { driverCloseInvoked := true,
        warning := some ("Warning: Error closing FalkorDB connection: " ++ m) }
  else
    { driverCloseInvoked := false, warning := none }

/-- Modelled from the spec (§4.1 step 5 / §6): the rendered schema is three
sections, each a fixed header line followed by one line per map entry in
the form `label: {prop1, prop2, ...}` (property maps) or
`(:start) -[:type]-> (:end)` (triples), entries in the iteration order of
the underlying map/list, sections separated by newlines. Stated only to be
compared with `formatSchema`, which is translated from the source. -/
def formatSchemaSpec (ss : StructuredSchema) : String :=
  let nodeLines := ss.nodeProps.map (fun p =>
    p.1 ++ ": \x7b" ++ String.intercalate ", " p.2 ++ "\x7d")
  let relLines := ss.relProps.map (fun p =>
    p.1 ++ ": \x7b" ++ String.intercalate ", " p.2 ++ "\x7d")
  let tripleLines := ss.relationships.map (fun rel =>
    "(:" ++ rel.start ++ ") -[:" ++ rel.type ++ "]-> (:" ++ rel.«end» ++ ")")
  let sec1 := "Node properties are the following:" ++ "\n" ++
    String.intercalate "\n" nodeLines
  let sec2 := "Relationship properties are the following:" ++ "\n" ++
    String.intercalate "\n" relLines
  let sec3 := "The relationships are the following:" ++ "\n" ++
    String.intercalate "\n" tripleLines
  sec1 ++ "\n" ++ sec2 ++ "\n" ++ sec3

/-- A `FalkorDBGraph` in the state reached right after `selectGraph`
succeeded: connected, graph selected, schema caches still initial. -/
def sampleSelectedGraph : FalkorDBGraph :=
  { hasDriver := true
    graphSelected := true
    schema := ""
    structuredSchema := { nodeProps := [], relProps := [], relationships := [] }
    enhancedSchema := false
    isExternalDriver := false }

/-- A `FalkorDBGraph` with a graph selected and a non-empty schema already
cached by an earlier refresh. -/
def sampleCachedGraph : FalkorDBGraph :=
  { hasDriver := true
    graphSelected := true
    schema := "Node properties are the following:\nPerson: \x7bname\x7d\nRelationship properties are the following:\n\nThe relationships are the following:\n"
    structuredSchema :=
      { nodeProps := [("Person", ["name"])]
        relProps := []
        relationships := [] }
    enhancedSchema := false
    isExternalDriver := false }

/-- Introspection outcomes in which every query invocation rejects, as when
the connection to the backend is gone. -/
def allErrorResults : IntrospectionResults :=
  { nodeProps := .error "Query execution failed: connection refused"
    relProps := .error "Query execution failed: connection refused"
    relationships := .error "Query execution failed: connection refused" }

/-- Introspection outcomes of a small non-empty graph: one `Person` label
with two properties, one `KNOWS` relationship type with one property, one
`(:Person) -[:KNOWS]-> (:Person)` triple. -/
def sampleOkResults : IntrospectionResults :=
  { nodeProps := .ok [⟨⟨"Person", ["name", "age"]⟩⟩]
    relProps := .ok [⟨⟨"KNOWS", ["since"]⟩⟩]
    relationships := .ok [⟨⟨"Person", "KNOWS", "Person"⟩⟩] }

/-- Introspection outcomes in which the node-properties query rejects while
the other two queries succeed with data. -/
def partialFailResults : IntrospectionResults :=
  { nodeProps := .error "Query execution failed: timeout"
    relProps := .ok [⟨⟨"KNOWS", ["since"]⟩⟩]
    relationships := .ok [⟨⟨"Person", "KNOWS", "Person"⟩⟩] }

/-- Introspection outcomes whose raw records carry duplicates: a node
record listing `name` twice and the same triple returned twice. -/
def duplicateRawResults : IntrospectionResults :=
  { nodeProps := .ok [⟨⟨"Person", ["name", "name"]⟩⟩]
    relProps := .ok []
    relationships :=
      .ok [⟨⟨"Person", "KNOWS", "Person"⟩⟩, ⟨⟨"Person", "KNOWS", "Person"⟩⟩] }

/-- Introspection outcomes of an empty graph: all three queries succeed
with zero records. -/
def emptyGraphResults : IntrospectionResults :=
  { nodeProps := .ok []
    relProps := .ok []
    relationships := .ok [] }

/-- The instance produced by `initialize` with an external driver and a
default graph, all backend calls succeeding. -/
def sampleExternalInitGraph : FalkorDBGraph :=
  { hasDriver := true
    graphSelected := true
    schema := ""
    structuredSchema := { nodeProps := [], relProps := [], relationships := [] }
    enhancedSchema := false
    isExternalDriver := true }

/-- Every pair of the object produced by one JS property-set step is either
a pair of the previous object or the pair just written. -/
theorem mem_insertEntry {α : Type} (acc : List (String × α)) (k : String)
    (v : α) (p : String × α) (hp : p ∈ insertEntry acc k v) :
    p ∈ acc ∨ p = (k, v) := by
  unfold insertEntry at hp
  by_cases h : acc.any (fun p => p.1 == k)
  · rw [if_pos h] at hp
    rcases List.mem_map.mp hp with ⟨q, hq, hqe⟩
    by_cases hk : q.1 == k
    · right
      rw [if_pos hk] at hqe
      exact hqe.symm
    · left
      rw [if_neg hk] at hqe
      exact hqe ▸ hq
  · rw [if_neg h] at hp
    rcases List.mem_append.mp hp with h1 | h1
    · exact .inl h1
    · exact .inr (List.mem_singleton.mp h1)

/-- Every pair of the fold of JS property-set steps over `l` starting from
`acc` is a pair of `acc` or a pair of `l`. -/
theorem mem_foldl_insertEntry {α : Type} (l : List (String × α))
    (acc : List (String × α)) (p : String × α)
    (hp : p ∈ l.foldl (fun acc q => insertEntry acc q.1 q.2) acc) :
    p ∈ acc ∨ p ∈ l := by
  induction l generalizing acc with
  | nil => exact .inl hp
  | cons q l ih =>
    rw [List.foldl_cons] at hp
    rcases ih (insertEntry acc q.1 q.2) hp with h | h
    · rcases mem_insertEntry acc q.1 q.2 p h with h1 | h1
      · exact .inl h1
      · exact .inr (h1 ▸ List.mem_cons_self q l)
    · exact .inr (List.mem_cons_of_mem q h)

/-- The model of `Object.fromEntries` invents no pairs: every `[key, value]` pair of the
resulting object occurs among the input pairs. -/
theorem mem_fromEntries {α : Type} (l : List (String × α)) (p : String × α)
    (hp : p ∈ fromEntries l) : p ∈ l := by
  rcases mem_foldl_insertEntry l [] p hp with h | h
  · exact absurd h (List.not_mem_nil p)
  · exact h

/-- With a graph selected, one `refreshSchema` call succeeds, issues the
three introspection queries, installs the normalized schema together with
its rendering, and touches no other field. -/
theorem refreshSchema_selected (g : FalkorDBGraph) (q : IntrospectionResults)
    (hg : g.graphSelected = true) :
    refreshSchema g q =
      { err := none
        state := { g with
          structuredSchema := normalizeIntrospection q
          schema := formatSchema (normalizeIntrospection q) }
        queriesIssued := 3 } := by
  simp [refreshSchema, hg, enhanceSchemaDetails]

/-- C3: with no graph selected, `refreshSchema` throws the
"No graph selected" error at once, issues zero introspection queries, and
leaves every field of the instance — in particular the cached
`structuredSchema` and rendered `schema` string — unchanged. -/
theorem refreshSchema_noGraphSelected (g : FalkorDBGraph)
    (q : IntrospectionResults) (h : g.graphSelected = false) :
    refreshSchema g q =
      { err := some "No graph selected. Call selectGraph() first.",
        state := g, queriesIssued := 0 } := by
  simp [refreshSchema, h]

/-- Witness for C3: a freshly constructed instance has no graph selected,
and `refreshSchema` on it fails with `NotReady`, zero queries, state
unchanged. -/
theorem refreshSchema_noGraphSelected_witness :
    refreshSchema (construct {}) sampleOkResults =
      { err := some "No graph selected. Call selectGraph() first.",
        state := construct {}, queriesIssued := 0 } :=
  refreshSchema_noGraphSelected (construct {}) sampleOkResults rfl

/-- C1 counterexample: with a graph selected, a non-empty cached schema,
and every introspection query invocation rejecting (no connection),
`refreshSchema` does not propagate any error and does not leave the cache
untouched: it succeeds and replaces the cached `StructuredSchema`. -/
theorem refreshSchema_allErrors_replacesCache :
    (refreshSchema sampleCachedGraph allErrorResults).err = none ∧
    (refreshSchema sampleCachedGraph allErrorResults).state.structuredSchema ≠
      sampleCachedGraph.structuredSchema := by
  decide

/-- C1 amended: the only state in which the introspection queries cannot be
issued is "no graph selected" (covered by C3); once a graph is selected,
errors from the query invocations themselves never propagate out of
`refreshSchema`: even when every query rejects, the call succeeds, issues
the three queries, and replaces the cache with the empty
`StructuredSchema` and its rendering. -/
theorem refreshSchema_allErrors_succeeds (g : FalkorDBGraph)
    (q : IntrospectionResults) (hg : g.graphSelected = true)
    (e1 e2 e3 : String) (h1 : q.nodeProps = .error e1)
    (h2 : q.relProps = .error e2) (h3 : q.relationships = .error e3) :
    (refreshSchema g q).err = none ∧
    (refreshSchema g q).queriesIssued = 3 ∧
    (refreshSchema g q).state.structuredSchema =
      { nodeProps := [], relProps := [], relationships := [] } ∧
    (refreshSchema g q).state.schema =
      formatSchema { nodeProps := [], relProps := [], relationships := [] } := by
  rw [refreshSchema_selected g q hg]
  simp [normalizeIntrospection, catchEmpty, h1, h2, h3, fromEntries]

/-- Witness for the amended C1, at the state and rejecting queries of the
counterexample. -/
theorem refreshSchema_allErrors_succeeds_witness :
    (refreshSchema sampleCachedGraph allErrorResults).err = none ∧
    (refreshSchema sampleCachedGraph allErrorResults).queriesIssued = 3 ∧
    (refreshSchema sampleCachedGraph allErrorResults).state.structuredSchema =
      { nodeProps := [], relProps := [], relationships := [] } ∧
    (refreshSchema sampleCachedGraph allErrorResults).state.schema =
      formatSchema { nodeProps := [], relProps := [], relationships := [] } :=
  refreshSchema_allErrors_succeeds sampleCachedGraph allErrorResults rfl
    "Query execution failed: connection refused"
    "Query execution failed: connection refused"
    "Query execution failed: connection refused" rfl rfl rfl

/-- C2: with a graph selected, `refreshSchema` completes successfully for
every combination of per-query outcomes; a rejecting query contributes an
empty dimension to the fresh `StructuredSchema`, while each succeeding
query's dimension is populated by normalizing its records. -/
theorem refreshSchema_partialFailureDegrades (g : FalkorDBGraph)
    (q : IntrospectionResults) (hg : g.graphSelected = true) :
    (refreshSchema g q).err = none ∧
    (∀ e, q.nodeProps = .error e →
      (refreshSchema g q).state.structuredSchema.nodeProps = []) ∧
    (∀ d, q.nodeProps = .ok d →
      (refreshSchema g q).state.structuredSchema.nodeProps =
        fromEntries (d.map (fun el => (el.output.label, el.output.properties)))) ∧
    (∀ e, q.relProps = .error e →
      (refreshSchema g q).state.structuredSchema.relProps = []) ∧
    (∀ d, q.relProps = .ok d →
      (refreshSchema g q).state.structuredSchema.relProps =
        fromEntries (d.map (fun el => (el.output.type, el.output.properties)))) ∧
    (∀ e, q.relationships = .error e →
      (refreshSchema g q).state.structuredSchema.relationships = []) ∧
    (∀ d, q.relationships = .ok d →
      (refreshSchema g q).state.structuredSchema.relationships =
        d.map (fun el => el.output)) := by
  rw [refreshSchema_selected g q hg]
  refine ⟨rfl, ?_, ?_, ?_, ?_, ?_, ?_⟩ <;>
    intro x hx <;>
    simp [normalizeIntrospection, catchEmpty, hx, fromEntries]

/-- Witness for C2: node-properties query rejects, the other two succeed;
the refresh succeeds with an empty node dimension and populated
relationship dimensions. -/
theorem refreshSchema_partialFailureDegrades_witness :
    (refreshSchema sampleSelectedGraph partialFailResults).err = none ∧
    (refreshSchema sampleSelectedGraph partialFailResults).state.structuredSchema.nodeProps = [] ∧
    (refreshSchema sampleSelectedGraph partialFailResults).state.structuredSchema.relProps =
      [("KNOWS", ["since"])] ∧
    (refreshSchema sampleSelectedGraph partialFailResults).state.structuredSchema.relationships =
      [⟨"Person", "KNOWS", "Person"⟩] := by
  have h := refreshSchema_partialFailureDegrades sampleSelectedGraph
    partialFailResults rfl
  refine ⟨h.1, h.2.1 "Query execution failed: timeout" rfl, ?_, ?_⟩
  · rw [h.2.2.2.2.1 [⟨⟨"KNOWS", ["since"]⟩⟩] rfl]
    decide
  · rw [h.2.2.2.2.2.2 [⟨⟨"Person", "KNOWS", "Person"⟩⟩] rfl]
    decide

/-- C4 counterexample: the normalization step performs no deduplication —
a raw node record whose `properties` array lists `name` twice yields a
per-label property list with a duplicate, and a triple returned twice by
the raw records appears twice in `relationships`. -/
theorem refreshSchema_rawDuplicates_propagate :
    (refreshSchema sampleSelectedGraph duplicateRawResults).err = none ∧
    (refreshSchema sampleSelectedGraph duplicateRawResults).state.structuredSchema.nodeProps =
      [("Person", ["name", "name"])] ∧
    ¬ (["name", "name"] : List String).Nodup ∧
    (refreshSchema sampleSelectedGraph duplicateRawResults).state.structuredSchema.relationships =
      [⟨"Person", "KNOWS", "Person"⟩, ⟨"Person", "KNOWS", "Person"⟩] ∧
    ¬ (refreshSchema sampleSelectedGraph duplicateRawResults).state.structuredSchema.relationships.Nodup := by
  decide

/-- C4 amended: deduplication is performed by the introspection queries
(`collect(DISTINCT key)`, `RETURN DISTINCT`), not during normalization;
normalization copies the raw records verbatim (a repeated label or type
keeps the last record's list), so the cached lists are duplicate-free
exactly when the raw records are: whenever each succeeding query's records
carry duplicate-free property lists and duplicate-free triples, every
per-label and per-type list and the triple list of the fresh
`StructuredSchema` are duplicate-free. -/
theorem refreshSchema_nodupFromQueries (g : FalkorDBGraph)
    (q : IntrospectionResults) (hg : g.graphSelected = true)
    (hnode : ∀ el ∈ catchEmpty q.nodeProps, el.output.properties.Nodup)
    (hrel : ∀ el ∈ catchEmpty q.relProps, el.output.properties.Nodup)
    (htri : ((catchEmpty q.relationships).map (fun el => el.output)).Nodup) :
    (∀ p ∈ (refreshSchema g q).state.structuredSchema.nodeProps, p.2.Nodup) ∧
    (∀ p ∈ (refreshSchema g q).state.structuredSchema.relProps, p.2.Nodup) ∧
    (refreshSchema g q).state.structuredSchema.relationships.Nodup := by
  rw [refreshSchema_selected g q hg]
  refine ⟨?_, ?_, ?_⟩
  · intro p hp
    rcases List.mem_map.mp (mem_fromEntries _ p hp) with ⟨el, hel, he⟩
    have : p.2 = el.output.properties := by rw [← he]
    rw [this]
    exact hnode el hel
  · intro p hp
    rcases List.mem_map.mp (mem_fromEntries _ p hp) with ⟨el, hel, he⟩
    have : p.2 = el.output.properties := by rw [← he]
    rw [this]
    exact hrel el hel
  · exact htri

/-- Witness for the amended C4: duplicate-free raw records from a small
graph yield duplicate-free cached property lists and triples. -/
theorem refreshSchema_nodupFromQueries_witness :
    (∀ p ∈ (refreshSchema sampleSelectedGraph sampleOkResults).state.structuredSchema.nodeProps, p.2.Nodup) ∧
    (∀ p ∈ (refreshSchema sampleSelectedGraph sampleOkResults).state.structuredSchema.relProps, p.2.Nodup) ∧
    (refreshSchema sampleSelectedGraph sampleOkResults).state.structuredSchema.relationships.Nodup :=
  refreshSchema_nodupFromQueries sampleSelectedGraph sampleOkResults rfl
    (by decide) (by decide) (by decide)

/-- C5: with a graph selected and all three introspection queries
succeeding with zero records, `refreshSchema` caches the empty
`StructuredSchema` and renders the three literal section headers with all
three section bodies empty. -/
theorem refreshSchema_emptyGraph (g : FalkorDBGraph)
    (q : IntrospectionResults) (hg : g.graphSelected = true)
    (h1 : q.nodeProps = .ok []) (h2 : q.relProps = .ok [])
    (h3 : q.relationships = .ok []) :
    (refreshSchema g q).err = none ∧
    (refreshSchema g q).state.structuredSchema =
      { nodeProps := [], relProps := [], relationships := [] } ∧
    (refreshSchema g q).state.schema =
      "Node properties are the following:\n" ++ "" ++
      "\nRelationship properties are the following:\n" ++ "" ++
      "\nThe relationships are the following:\n" ++ "" := by
  have hs : normalizeIntrospection q =
      { nodeProps := [], relProps := [], relationships := [] } := by
    simp [normalizeIntrospection, catchEmpty, h1, h2, h3, fromEntries]
  rw [refreshSchema_selected g q hg]
  refine ⟨rfl, ?_, ?_⟩
  · exact hs
  · show formatSchema (normalizeIntrospection q) = _
    rw [hs]
    decide

/-- Witness for C5 at the empty-graph query outcomes. -/
theorem refreshSchema_emptyGraph_witness :
    (refreshSchema sampleSelectedGraph emptyGraphResults).err = none ∧
    (refreshSchema sampleSelectedGraph emptyGraphResults).state.structuredSchema =
      { nodeProps := [], relProps := [], relationships := [] } ∧
    (refreshSchema sampleSelectedGraph emptyGraphResults).state.schema =
      "Node properties are the following:\n" ++ "" ++
      "\nRelationship properties are the following:\n" ++ "" ++
      "\nThe relationships are the following:\n" ++ "" :=
  refreshSchema_emptyGraph sampleSelectedGraph emptyGraphResults rfl rfl rfl rfl

/-- Joining six strings with a separator is the chain of their
separator-interleaved concatenations. -/
theorem intercalate_six (s a b c d e f : String) :
    String.intercalate s [a, b, c, d, e, f] =
      a ++ s ++ b ++ s ++ c ++ s ++ d ++ s ++ e ++ s ++ f := rfl

/-- C6: the renderer translated from the source coincides, on every
`StructuredSchema`, with the format stated by the spec — the three literal
section headers in order, one `label: {prop1, prop2, ...}` line per
property-map entry, one `(:start) -[:type]-> (:end)` line per triple,
entries in the iteration order of the underlying map/list, sections
separated by newlines. -/
theorem formatSchema_eq_formatSchemaSpec (ss : StructuredSchema) :
    formatSchema ss = formatSchemaSpec ss := by
  simp only [formatSchema, formatSchemaSpec, intercalate_six,
    String.append_assoc]

/-- C7: refreshing twice with unchanged introspection results caches the
same `StructuredSchema` and the same rendered string as refreshing once —
the second refresh replaces rather than merges with the first one's
cache. -/
theorem refreshSchema_idempotent (g : FalkorDBGraph)
    (q : IntrospectionResults) (hg : g.graphSelected = true) :
    (refreshSchema (refreshSchema g q).state q).state.structuredSchema =
      (refreshSchema g q).state.structuredSchema ∧
    (refreshSchema (refreshSchema g q).state q).state.schema =
      (refreshSchema g q).state.schema := by
  have h1 := refreshSchema_selected g q hg
  have hg2 : (refreshSchema g q).state.graphSelected = true := by
    rw [h1]; exact hg
  rw [refreshSchema_selected _ q hg2, h1]
  exact ⟨rfl, rfl⟩

/-- Witness for C7 at a concrete selected graph and fixed query results. -/
theorem refreshSchema_idempotent_witness :
    (refreshSchema (refreshSchema sampleSelectedGraph sampleOkResults).state
        sampleOkResults).state.structuredSchema =
      (refreshSchema sampleSelectedGraph sampleOkResults).state.structuredSchema ∧
    (refreshSchema (refreshSchema sampleSelectedGraph sampleOkResults).state
        sampleOkResults).state.schema =
      (refreshSchema sampleSelectedGraph sampleOkResults).state.schema :=
  refreshSchema_idempotent sampleSelectedGraph sampleOkResults rfl

/-- C8: after any successful refresh the rendered string returned by
`getSchema` is exactly the formatter applied to the cached
`StructuredSchema`, and any two post-refresh states with equal cached
`StructuredSchema` values return byte-identical rendered strings — the
formatter reads no other state. -/
theorem getSchema_dependsOnlyOnStructuredSchema (g1 g2 : FalkorDBGraph)
    (q1 q2 : IntrospectionResults) (h1 : g1.graphSelected = true)
    (h2 : g2.graphSelected = true) :
    getSchema (refreshSchema g1 q1).state =
      formatSchema (getStructuredSchema (refreshSchema g1 q1).state) ∧
    (getStructuredSchema (refreshSchema g1 q1).state =
        getStructuredSchema (refreshSchema g2 q2).state →
      getSchema (refreshSchema g1 q1).state =
        getSchema (refreshSchema g2 q2).state) := by
  rw [refreshSchema_selected g1 q1 h1, refreshSchema_selected g2 q2 h2]
  refine ⟨rfl, fun he => ?_⟩
  simp only [getSchema, getStructuredSchema] at he ⊢
  show formatSchema (normalizeIntrospection q1) =
    formatSchema (normalizeIntrospection q2)
  rw [show normalizeIntrospection q1 = normalizeIntrospection q2 from he]

/-- Witness for C8: two different pre-refresh states fed the same query
results end up with equal structured schemas and byte-identical rendered
strings. -/
theorem getSchema_dependsOnlyOnStructuredSchema_witness :
    getSchema (refreshSchema sampleSelectedGraph sampleOkResults).state =
      formatSchema (getStructuredSchema
        (refreshSchema sampleSelectedGraph sampleOkResults).state) ∧
    getSchema (refreshSchema sampleSelectedGraph sampleOkResults).state =
      getSchema (refreshSchema sampleCachedGraph sampleOkResults).state := by
  have h := getSchema_dependsOnlyOnStructuredSchema sampleSelectedGraph
    sampleCachedGraph sampleOkResults sampleOkResults rfl rfl
  exact ⟨h.1, h.2 (by decide)⟩

/-- C9: the enhanced-schema mode changes nothing observable of a
`refreshSchema` call — error, cached `StructuredSchema`, rendered string
and query count are identical with the mode on and off, since
`enhanceSchemaDetails` only logs. -/
theorem refreshSchema_enhancedMode_noop (g : FalkorDBGraph)
    (q : IntrospectionResults) :
    (refreshSchema { g with enhancedSchema := true } q).err =
      (refreshSchema { g with enhancedSchema := false } q).err ∧
    (refreshSchema { g with enhancedSchema := true } q).state.structuredSchema =
      (refreshSchema { g with enhancedSchema := false } q).state.structuredSchema ∧
    (refreshSchema { g with enhancedSchema := true } q).state.schema =
      (refreshSchema { g with enhancedSchema := false } q).state.schema ∧
    (refreshSchema { g with enhancedSchema := true } q).queriesIssued =
      (refreshSchema { g with enhancedSchema := false } q).queriesIssued := by
  by_cases hgs : g.graphSelected = true
  · simp [refreshSchema, hgs, enhanceSchemaDetails]
  · have hf : g.graphSelected = false := by simpa using hgs
    simp [refreshSchema, hf]

/-- A successful `initAfterDriver` returns the instance it was given, at
most with the graph-selected flag turned on. -/
theorem initAfterDriver_ok (config : FalkorDBGraphConfig)
    (g1 : FalkorDBGraph) (iR sR : Except String Unit) (g : FalkorDBGraph)
    (h : initAfterDriver config g1 iR sR = .ok g) :
    g = g1 ∨ g = { g1 with graphSelected := true } := by
  unfold initAfterDriver at h
  cases iR with
  | error m => simp at h
  | ok _ =>
    cases hcg : config.graph with
    | none =>
      rw [hcg] at h
      injection h with h
      exact .inl h.symm
    | some name =>
      rw [hcg] at h
      cases sR with
      | ok _ =>
        injection h with h
        exact .inr h.symm
      | error m => simp at h

/-- Every instance a successful `initialize` hands out has a driver, and
its internal/external driver marker records exactly whether
`config.driver` was supplied to the constructor. -/
theorem initGraph_ok_fields (config : FalkorDBGraphConfig)
    (cR iR sR : Except String Unit) (g : FalkorDBGraph)
    (h : initGraph config cR iR sR = .ok g) :
    g.hasDriver = true ∧ g.isExternalDriver = config.driver.isSome := by
  unfold initGraph at h
  cases hd : config.driver with
  | some u =>
    simp only [hd] at h
    rcases initAfterDriver_ok config _ iR sR g h with h1 | h1 <;> rw [h1] <;>
      simp [construct, hd]
  | none =>
    simp only [hd] at h
    cases cR with
    | error m => simp at h
    | ok _ =>
      rcases initAfterDriver_ok config _ iR sR g h with h1 | h1 <;> rw [h1] <;>
        simp [construct, hd]

/-- C10: for every instance handed out by a successful `initialize`, if an
external driver was supplied then `close` never invokes the driver's close
operation (whatever that operation would do); if the driver was created
internally, `close` does invoke it, and a rejection of `driver.close()` is
caught and surfaced only as the warning — `close` itself never throws. -/
theorem close_driverOwnership (config : FalkorDBGraphConfig)
    (cR iR sR : Except String Unit) (g : FalkorDBGraph)
    (hinit : initGraph config cR iR sR = .ok g) :
    (config.driver.isSome = true →
      ∀ r, close g r = { driverCloseInvoked := false, warning := none }) ∧
    (config.driver = none →
      close g (.ok ()) = { driverCloseInvoked := true, warning := none } ∧
      ∀ m, close g (.error m) =
        { driverCloseInvoked := true,
          warning := some ("Warning: Error closing FalkorDB connection: " ++ m) }) := by
  obtain ⟨hdrv, hext⟩ := initGraph_ok_fields config cR iR sR g hinit
  constructor
  · intro hsome r
    rw [hsome] at hext
    simp [close, hdrv, hext]
  · intro hnone
    rw [hnone] at hext
    simp only [Option.isSome_none] at hext
    exact ⟨by simp [close, hdrv, hext], fun m => by simp [close, hdrv, hext]⟩

/-- Witness for C10: an instance initialized with an externally supplied
driver does not invoke the driver's close operation even when that
operation would reject. -/
theorem close_driverOwnership_witness :
    close sampleExternalInitGraph (.error "boom") =
      { driverCloseInvoked := false, warning := none } := by
  have h := close_driverOwnership
    { driver := some (), graph := some "falkordbTestGraph" }
    (.ok ()) (.ok ()) (.ok ()) sampleExternalInitGraph rfl
  exact h.1 rfl (.error "boom")
